import Mathlib

/-!
Shallow embedding of the asynchronous log producer of this repository
(`producer.go`, the file under `src/unnamed/part_000`), together with proofs
about its admission back-pressure (`waitTime`), its submission operations
(`SendLog`, `SendLogList`, `HashSendLog` and the `WithCallBack` variants),
configuration validation (`validateProducerConfig`), startup (`Start`) and
shutdown (`Close`, `SafeClose`, `sendCloseProdcerSignal`,
`closeStstokenChannel`).

Time model: the producer's polling loops sleep a fixed 10 ms quantum between
successive observations of the atomic byte counter `producerLogGroupSize`.
The embedding therefore indexes the counter by the number of sleeps performed
so far: `size t` is the value every atomic load observes after `t` sleeps.
Loads that are not separated by a sleep observe the same instant.  Unbounded
loops take a `fuel` argument; exhausting the fuel yields the distinguished
outcome `GoResult.running`, meaning the call has not yet returned (it never
models an error).

Parts of the repository that `producer.go` calls but that are not under
`src/` (the accumulator's `addLogToProducerBatch`, `AdjustHash`, the io
thread pool) are modelled from the spec; each such definition carries a doc
comment starting with `Modelled from the spec:`.
-/

/-- Error text of `errors.New(TimeoutExecption)` (`producer.go` const block):
the error returned both by `waitTime` on an elapsed admission wait and by
`Close` on an elapsed bounded shutdown. -/
def TimeoutExecption : String := "TimeoutExecption"

/-- Second constant of the `producer.go` const block (unused by the claims). -/
def IllegalStateException : String := "IllegalStateException"

/-- Modelled from the spec: the error kind yielded by the routing-hash
adjustment for a bad `Buckets` value (§4.7, §7 `InvalidArgument`). -/
def InvalidArgument : String := "InvalidArgument"

/-- `const waitTimeUnit = time.Millisecond * 10`, expressed in milliseconds. -/
def waitTimeUnitMs : Nat := 10

/-- `const waitUnitPerSec = int(time.Second / waitTimeUnit)` = 100. -/
def waitUnitPerSec : Nat := 1000 / waitTimeUnitMs

/-- The configuration fields of `ProducerConfig` read by the code under
`src/` (struct itself defined elsewhere in the repository; fields and their
meanings follow the spec's configuration table, §6). -/
structure ProducerConfig where
  TotalSizeLnBytes : Int
  MaxBlockSec : Int
  MaxBatchCount : Int
  MaxBatchSize : Int
  MaxIoWorkerCount : Int
  BaseRetryBackoffMs : Int
  MaxRetryBackoffMs : Int
  MaxRetryTimes : Int
  MaxReservedAttempts : Int
  LingerMs : Int
  AdjustShargHash : Bool
  Buckets : Int
  DisableRuntimeMetrics : Bool
deriving DecidableEq, Repr

/-- `validateProducerConfig` (`producer.go:117`): each out-of-range field is
reset to its default, in source order.  Logging of the warnings is not
modelled. -/
def validateProducerConfig (producerConfig : ProducerConfig) : ProducerConfig :=
  let c1 :=
    if producerConfig.MaxReservedAttempts ≤ 0 then
      { producerConfig with MaxReservedAttempts := 11 }
    else producerConfig
  let c2 :=
    if c1.MaxBatchCount > 40960 ∨ c1.MaxBatchCount ≤ 0 then
      { c1 with MaxBatchCount := 40960 }
    else c1
  let c3 :=
    if c2.MaxBatchSize > 1024 * 1024 * 5 ∨ c2.MaxBatchSize ≤ 0 then
      { c2 with MaxBatchSize := 1024 * 1024 * 5 }
    else c2
  let c4 :=
    if c3.MaxIoWorkerCount ≤ 0 then
      { c3 with MaxIoWorkerCount := 50 }
    else c3
  let c5 :=
    if c4.BaseRetryBackoffMs ≤ 0 then
      { c4 with BaseRetryBackoffMs := 100 }
    else c4
  let c6 :=
    if c5.TotalSizeLnBytes ≤ 0 then
      { c5 with TotalSizeLnBytes := 100 * 1024 * 1024 }
    else c5
  let c7 :=
    if c6.LingerMs < 100 then
      { c6 with LingerMs := 2000 }
    else c6
  c7

/-- Outcome of a Go call: returned `nil`, returned `errors.New(msg)`, or has
not returned yet (an unbounded loop still spinning when the fuel ran out). -/
inductive GoResult where
  | ok : GoResult
  | err : String → GoResult
  | running : GoResult
deriving DecidableEq, BEq, Repr

/-- The loop of the `MaxBlockSec < 0` branch of `waitTime`
(`producer.go:260`): spin, sleeping one 10 ms quantum per iteration, until
the observed size drops to the budget.  Second result: total sleeps. -/
def infiniteWaitLoop (total : Int) (size : Nat → Int) : Nat → Nat → GoResult × Nat
  | 0, t => (GoResult.running, t)
  | fuel + 1, t =>
    if size t > total then infiniteWaitLoop total size fuel (t + 1) else (GoResult.ok, t)

/-- The loop of the `MaxBlockSec > 0` branch of `waitTime`
(`producer.go:268`): at most `MaxBlockSec * waitUnitPerSec` iterations, one
10 ms sleep per iteration that still observes the size above the budget;
exhausting the iterations yields the `TimeoutExecption` error. -/
def boundedWaitLoop (total : Int) (size : Nat → Int) : Nat → Nat → GoResult × Nat
  | 0, t => (GoResult.err TimeoutExecption, t)
  | n + 1, t =>
    if size t > total then boundedWaitLoop total size n (t + 1) else (GoResult.ok, t)

/-- What a single `waitTime` call did: its returned result, how many 10 ms
sleeps it performed, whether the deferred `monitor.recordWaitMemory` ran
(it is installed only after the fast paths), and how many times
`monitor.incWaitMemoryFail` was called. -/
structure WaitOut where
  result : GoResult
  sleeps : Nat
  waitRecorded : Bool
  waitFails : Nat
deriving DecidableEq, Repr

/-- `waitTime` (`producer.go:243`): the admission gate run at the start of
every submission operation.  `size t` is the value the atomic loads observe
after `t` sleeps (both loads of the `MaxBlockSec == 0` branch happen with no
sleep in between, hence at instant 0). -/
def waitTime (cfg : ProducerConfig) (size : Nat → Int) (fuel : Nat) : WaitOut :=
  if size 0 ≤ cfg.TotalSizeLnBytes then
    { result := GoResult.ok, sleeps := 0, waitRecorded := false, waitFails := 0 }
  else if cfg.MaxBlockSec = 0 then
    if size 0 > cfg.TotalSizeLnBytes then
      { result := GoResult.err TimeoutExecption, sleeps := 0, waitRecorded := false, waitFails := 0 }
    else
      { result := GoResult.ok, sleeps := 0, waitRecorded := false, waitFails := 0 }
  else if cfg.MaxBlockSec < 0 then
    let p := infiniteWaitLoop cfg.TotalSizeLnBytes size fuel 0
    { result := p.1, sleeps := p.2, waitRecorded := p.1 != GoResult.running, waitFails := 0 }
  else
    let p := boundedWaitLoop cfg.TotalSizeLnBytes size (cfg.MaxBlockSec.toNat * waitUnitPerSec) 0
    { result := p.1, sleeps := p.2, waitRecorded := true,
      waitFails := match p.1 with | GoResult.err _ => 1 | _ => 0 }

/-- The key under which the accumulator groups records
(project, logstore, shard hash, topic, source).  An absent shard hash models
the empty-string hash the plain `Send*` operations pass. -/
structure BatchKey where
  project : String
  logstore : String
  shardHash : Option Nat
  topic : String
  source : String
deriving DecidableEq, Repr

/-- The `log` / `logList` argument of a submission, abstracted to its
serialized byte size(s). -/
inductive LogPayload where
  | single (size : Nat)
  | list (sizes : List Nat)
deriving DecidableEq, Repr

/-- Aggregate byte size of a payload. -/
def LogPayload.byteSize : LogPayload → Nat
  | LogPayload.single s => s
  | LogPayload.list l => l.sum

/-- One admitted submission as recorded by the accumulator: its batch key,
its payload and the callback attached (if any, identified by a tag). -/
structure AdmittedEntry where
  key : BatchKey
  payload : LogPayload
  callback : Option String
deriving DecidableEq, Repr

/-- The producer state visible to the submission operations: the atomic
`producerLogGroupSize` byte counter, the admitted entries (most recent
first), and the two monitor counters `waitMemory` / `waitMemoryFail`. -/
structure ProducerState where
  producerLogGroupSize : Int
  accumulator : List AdmittedEntry
  waitMemoryCount : Nat
  waitMemoryFailCount : Nat
deriving DecidableEq, Repr

/-- Apply the monitor effects of a finished `waitTime` call to the state. -/
def applyWait (st : ProducerState) (w : WaitOut) : ProducerState :=
  { st with
    waitMemoryCount := st.waitMemoryCount + (if w.waitRecorded then 1 else 0),
    waitMemoryFailCount := st.waitMemoryFailCount + w.waitFails }

/-- Modelled from the spec: the accumulator method `addLogToProducerBatch`
is not under `src/`.  Per §4.1 (the success path of `Add`) and §3
(`GlobalBudget` is "increased on admission"), a successful admission appends
the record(s) to the open batch for the key and increases the global budget
by their byte size.  Only this success path is needed by the properties
stated here; the `Add` rejection branches of §4.1 are outside them. -/
def addLogToProducerBatch (st : ProducerState) (key : BatchKey) (payload : LogPayload)
    (callback : Option String) : ProducerState :=
  { st with
    accumulator := { key := key, payload := payload, callback := callback } :: st.accumulator,
    producerLogGroupSize := st.producerLogGroupSize + payload.byteSize }

/-- Modelled from the spec (§4.7): the valid bucket counts are exactly the
powers of two in [1, 256]. -/
def validBuckets (buckets : Int) : Bool :=
  buckets == 1 || buckets == 2 || buckets == 4 || buckets == 8 || buckets == 16 ||
    buckets == 32 || buckets == 64 || buckets == 128 || buckets == 256

/-- Width of the routing-hash space (§4.7: "the 128-bit hash space"). -/
def hashSpaceBits : Nat := 128

/-- Modelled from the spec: `AdjustHash` is not under `src/`.  Per §4.7 it
rounds the caller's routing hash down to the lower endpoint of one of
`Buckets` uniform ranges of the 128-bit hash space, and yields
`InvalidArgument` when `Buckets` is not a power of two in [1, 256]. -/
def AdjustHash (shardHash : Nat) (buckets : Int) : Except String Nat :=
  if validBuckets buckets then
    let rangeSize := 2 ^ hashSpaceBits / buckets.toNat
    Except.ok (shardHash % 2 ^ hashSpaceBits / rangeSize * rangeSize)
  else
    Except.error InvalidArgument

/-- Result of one submission operation: the returned error (if any), the
producer state afterwards, and whether `AdjustHash` was invoked. -/
structure SubmitOut where
  result : GoResult
  state : ProducerState
  adjustInvoked : Bool
deriving DecidableEq, Repr

/-- `HashSendLogWithCallBack` (`producer.go:149`): admission wait, then — when
`AdjustShargHash` is set — hash adjustment (propagating its error without
touching the accumulator), then admission under the adjusted hash.  The
atomic size counter is embedded sequentially: every poll observes the
state's current value. -/
def HashSendLogWithCallBack (cfg : ProducerConfig) (st : ProducerState) (fuel : Nat)
    (project logstore : String) (shardHash : Nat) (topic source : String)
    (logSize : Nat) (callback : String) : SubmitOut :=
  let w := waitTime cfg (fun _ => st.producerLogGroupSize) fuel
  let st1 := applyWait st w
  match w.result with
  | GoResult.ok =>
    if cfg.AdjustShargHash then
      match AdjustHash shardHash cfg.Buckets with
      | Except.error e => { result := GoResult.err e, state := st1, adjustInvoked := true }
      | Except.ok h =>
        { result := GoResult.ok,
          state := addLogToProducerBatch st1
            { project := project, logstore := logstore, shardHash := some h,
              topic := topic, source := source }
            (LogPayload.single logSize) (some callback),
          adjustInvoked := true }
    else
      { result := GoResult.ok,
        state := addLogToProducerBatch st1
          { project := project, logstore := logstore, shardHash := some shardHash,
            topic := topic, source := source }
          (LogPayload.single logSize) (some callback),
        adjustInvoked := false }
  | r => { result := r, state := st1, adjustInvoked := false }

/-- `HashSendLogListWithCallBack` (`producer.go:163`). -/
def HashSendLogListWithCallBack (cfg : ProducerConfig) (st : ProducerState) (fuel : Nat)
    (project logstore : String) (shardHash : Nat) (topic source : String)
    (logSizes : List Nat) (callback : String) : SubmitOut :=
  let w := waitTime cfg (fun _ => st.producerLogGroupSize) fuel
  let st1 := applyWait st w
  match w.result with
  | GoResult.ok =>
    if cfg.AdjustShargHash then
      match AdjustHash shardHash cfg.Buckets with
      | Except.error e => { result := GoResult.err e, state := st1, adjustInvoked := true }
      | Except.ok h =>
        { result := GoResult.ok,
          state := addLogToProducerBatch st1
            { project := project, logstore := logstore, shardHash := some h,
              topic := topic, source := source }
            (LogPayload.list logSizes) (some callback),
          adjustInvoked := true }
    else
      { result := GoResult.ok,
        state := addLogToProducerBatch st1
          { project := project, logstore := logstore, shardHash := some shardHash,
            topic := topic, source := source }
          (LogPayload.list logSizes) (some callback),
        adjustInvoked := false }
  | r => { result := r, state := st1, adjustInvoked := false }

/-- `SendLog` (`producer.go:178`): admission wait, then admission under the
empty shard hash with no callback; `AdjustHash` is never consulted. -/
def SendLog (cfg : ProducerConfig) (st : ProducerState) (fuel : Nat)
    (project logstore topic source : String) (logSize : Nat) : SubmitOut :=
  let w := waitTime cfg (fun _ => st.producerLogGroupSize) fuel
  let st1 := applyWait st w
  match w.result with
  | GoResult.ok =>
    { result := GoResult.ok,
      state := addLogToProducerBatch st1
        { project := project, logstore := logstore, shardHash := none,
          topic := topic, source := source }
        (LogPayload.single logSize) none,
      adjustInvoked := false }
  | r => { result := r, state := st1, adjustInvoked := false }

/-- `SendLogList` (`producer.go:186`). -/
def SendLogList (cfg : ProducerConfig) (st : ProducerState) (fuel : Nat)
    (project logstore topic source : String) (logSizes : List Nat) : SubmitOut :=
  let w := waitTime cfg (fun _ => st.producerLogGroupSize) fuel
  let st1 := applyWait st w
  match w.result with
  | GoResult.ok =>
    { result := GoResult.ok,
      state := addLogToProducerBatch st1
        { project := project, logstore := logstore, shardHash := none,
          topic := topic, source := source }
        (LogPayload.list logSizes) none,
      adjustInvoked := false }
  | r => { result := r, state := st1, adjustInvoked := false }

/-- `HashSendLog` (`producer.go:196`). -/
def HashSendLog (cfg : ProducerConfig) (st : ProducerState) (fuel : Nat)
    (project logstore : String) (shardHash : Nat) (topic source : String)
    (logSize : Nat) : SubmitOut :=
  let w := waitTime cfg (fun _ => st.producerLogGroupSize) fuel
  let st1 := applyWait st w
  match w.result with
  | GoResult.ok =>
    if cfg.AdjustShargHash then
      match AdjustHash shardHash cfg.Buckets with
      | Except.error e => { result := GoResult.err e, state := st1, adjustInvoked := true }
      | Except.ok h =>
        { result := GoResult.ok,
          state := addLogToProducerBatch st1
            { project := project, logstore := logstore, shardHash := some h,
              topic := topic, source := source }
            (LogPayload.single logSize) none,
          adjustInvoked := true }
    else
      { result := GoResult.ok,
        state := addLogToProducerBatch st1
          { project := project, logstore := logstore, shardHash := some shardHash,
            topic := topic, source := source }
          (LogPayload.single logSize) none,
        adjustInvoked := false }
  | r => { result := r, state := st1, adjustInvoked := false }

/-- `HashSendLogList` (`producer.go:210`). -/
def HashSendLogList (cfg : ProducerConfig) (st : ProducerState) (fuel : Nat)
    (project logstore : String) (shardHash : Nat) (topic source : String)
    (logSizes : List Nat) : SubmitOut :=
  let w := waitTime cfg (fun _ => st.producerLogGroupSize) fuel
  let st1 := applyWait st w
  match w.result with
  | GoResult.ok =>
    if cfg.AdjustShargHash then
      match AdjustHash shardHash cfg.Buckets with
      | Except.error e => { result := GoResult.err e, state := st1, adjustInvoked := true }
      | Except.ok h =>
        { result := GoResult.ok,
          state := addLogToProducerBatch st1
            { project := project, logstore := logstore, shardHash := some h,
              topic := topic, source := source }
            (LogPayload.list logSizes) none,
          adjustInvoked := true }
    else
      { result := GoResult.ok,
        state := addLogToProducerBatch st1
          { project := project, logstore := logstore, shardHash := some shardHash,
            topic := topic, source := source }
          (LogPayload.list logSizes) none,
        adjustInvoked := false }
  | r => { result := r, state := st1, adjustInvoked := false }

/-- `SendLogWithCallBack` (`producer.go:225`). -/
def SendLogWithCallBack (cfg : ProducerConfig) (st : ProducerState) (fuel : Nat)
    (project logstore topic source : String) (logSize : Nat) (callback : String) : SubmitOut :=
  let w := waitTime cfg (fun _ => st.producerLogGroupSize) fuel
  let st1 := applyWait st w
  match w.result with
  | GoResult.ok =>
    { result := GoResult.ok,
      state := addLogToProducerBatch st1
        { project := project, logstore := logstore, shardHash := none,
          topic := topic, source := source }
        (LogPayload.single logSize) (some callback),
      adjustInvoked := false }
  | r => { result := r, state := st1, adjustInvoked := false }

/-- `SendLogListWithCallBack` (`producer.go:233`). -/
def SendLogListWithCallBack (cfg : ProducerConfig) (st : ProducerState) (fuel : Nat)
    (project logstore topic source : String) (logSizes : List Nat) (callback : String) : SubmitOut :=
  let w := waitTime cfg (fun _ => st.producerLogGroupSize) fuel
  let st1 := applyWait st w
  match w.result with
  | GoResult.ok =>
    { result := GoResult.ok,
      state := addLogToProducerBatch st1
        { project := project, logstore := logstore, shardHash := none,
          topic := topic, source := source }
        (LogPayload.list logSizes) (some callback),
      adjustInvoked := false }
  | r => { result := r, state := st1, adjustInvoked := false }

/-- The shutdown-relevant state of a producer: whether the configuration
carries an sts-token shutdown channel, whether that channel has been closed,
and the cooperative shutdown flags the driver sets.  The thread-pool
shutdown (`threadPool.ShutDown`, not under `src/`) is modelled from the
spec (§5, "two cooperative flags") as the `threadPoolShutDown` flag. -/
structure ShutdownState where
  stsTokenSet : Bool
  stsTokenClosed : Bool
  moverShutDownFlag : Bool
  accumulatorShutDownFlag : Bool
  retryQueueShutDownFlag : Bool
  threadPoolShutDown : Bool
deriving DecidableEq, Repr

/-- A Go runtime panic relevant to this code. -/
inductive GoPanic where
  | closeOfClosedChannel : GoPanic
deriving DecidableEq, Repr

/-- `closeStstokenChannel` (`producer.go:331`): when the configuration holds
an `StsTokenShutDown` channel, `close` it.  In Go, `close` of an already
closed channel panics. -/
def closeStstokenChannel (st : ShutdownState) : Except GoPanic ShutdownState :=
  if st.stsTokenSet then
    if st.stsTokenClosed then Except.error GoPanic.closeOfClosedChannel
    else Except.ok { st with stsTokenClosed := true }
  else Except.ok st

/-- `sendCloseProdcerSignal` (`producer.go:323`): close the sts-token channel,
then set the mover, accumulator and retry-queue shutdown flags. -/
def sendCloseProdcerSignal (st : ShutdownState) : Except GoPanic ShutdownState :=
  match closeStstokenChannel st with
  | Except.error p => Except.error p
  | Except.ok st1 =>
    Except.ok { st1 with
      moverShutDownFlag := true,
      accumulatorShutDownFlag := true,
      retryQueueShutDownFlag := true }

/-- The shutdown state after one successful close signal plus thread-pool
shutdown: the sts channel is closed iff it exists, and every flag is set. -/
def closeSignaled (st : ShutdownState) : ShutdownState :=
  { st with
    stsTokenClosed := st.stsTokenSet || st.stsTokenClosed,
    moverShutDownFlag := true,
    accumulatorShutDownFlag := true,
    retryQueueShutDownFlag := true,
    threadPoolShutDown := true }

/-- `SafeClose` (`producer.go:312`): signal shutdown, wait for the mover,
shut the thread pool down, wait for the pool and the io workers.  The waits
do not change the modelled state; the pool shutdown sets its flag. -/
def SafeClose (st : ShutdownState) : Except GoPanic ShutdownState :=
  match sendCloseProdcerSignal st with
  | Except.error p => Except.error p
  | Except.ok st1 => Except.ok { st1 with threadPoolShutDown := true }

/-- Environment of a `Close` call: `stopped k` is what `threadPool.Stopped()`
returns at the k-th iteration of the polling loop, and `elapsedMs k` is
`time.Since(startCloseTime)` in milliseconds at that iteration (the loop
sleeps 100 ms between iterations). -/
structure CloseEnv where
  stopped : Nat → Bool
  elapsedMs : Nat → Int

/-- The polling loop of `Close` (`producer.go:301`): while the pool has not
stopped, return the `TimeoutExecption` error once the elapsed time exceeds
the budget, else sleep 100 ms and poll again. -/
def closeLoop (timeoutMs : Int) (env : CloseEnv) : Nat → Nat → GoResult
  | 0, _ => GoResult.running
  | fuel + 1, k =>
    if env.stopped k then GoResult.ok
    else if env.elapsedMs k > timeoutMs then GoResult.err TimeoutExecption
    else closeLoop timeoutMs env fuel (k + 1)

/-- `Close` (`producer.go:296`): signal shutdown (may panic on a closed sts
channel), wait for the mover, shut the thread pool down, then poll the pool
with a deadline measured from the start of the call. -/
def Close (st : ShutdownState) (timeoutMs : Int) (env : CloseEnv) (fuel : Nat) :
    Except GoPanic (GoResult × ShutdownState) :=
  match sendCloseProdcerSignal st with
  | Except.error p => Except.error p
  | Except.ok st1 =>
    Except.ok (closeLoop timeoutMs env fuel 0, { st1 with threadPoolShutDown := true })

/-- Goroutines and wait-group counters touched by `Start`. -/
structure RunState where
  moverGoroutines : Nat
  ioThreadPoolGoroutines : Nat
  monitorGoroutines : Nat
  moverWaitGroupCount : Nat
  ioThreadPoolWaitGroupCount : Nat
deriving DecidableEq, Repr

/-- `Start` (`producer.go:284`): unconditionally add to the mover wait group
and spawn the mover goroutine, add to the pool wait group and spawn the pool
goroutine, and — unless `DisableRuntimeMetrics` — spawn the monitor report
goroutine.  There is no guard against being called twice. -/
def Start (cfg : ProducerConfig) (st : RunState) : RunState :=
  { moverGoroutines := st.moverGoroutines + 1,
    ioThreadPoolGoroutines := st.ioThreadPoolGoroutines + 1,
    monitorGoroutines := st.monitorGoroutines + (if cfg.DisableRuntimeMetrics then 0 else 1),
    moverWaitGroupCount := st.moverWaitGroupCount + 1,
    ioThreadPoolWaitGroupCount := st.ioThreadPoolWaitGroupCount + 1 }

/-- A fully in-range configuration used as a concrete input by the witness
and counterexample theorems below (`TotalSizeLnBytes` 1024, `MaxBlockSec` 1,
everything else at its documented default). -/
def cfgBase : ProducerConfig :=
  { TotalSizeLnBytes := 1024, MaxBlockSec := 1, MaxBatchCount := 40960,
    MaxBatchSize := 1024 * 1024 * 5, MaxIoWorkerCount := 50,
    BaseRetryBackoffMs := 100, MaxRetryBackoffMs := 50000, MaxRetryTimes := 10,
    MaxReservedAttempts := 11, LingerMs := 2000, AdjustShargHash := true,
    Buckets := 64, DisableRuntimeMetrics := false }

/-- Producer state holding one already-admitted 1000-byte record. -/
def stOneRecord : ProducerState :=
  { producerLogGroupSize := 1000,
    accumulator :=
      [{ key := { project := "p", logstore := "l", shardHash := none,
                  topic := "t", source := "s" },
         payload := LogPayload.single 1000, callback := none }],
    waitMemoryCount := 0, waitMemoryFailCount := 0 }

/-- Producer state whose byte counter is already over every small budget. -/
def stOverBudget : ProducerState :=
  { producerLogGroupSize := 2000, accumulator := [],
    waitMemoryCount := 0, waitMemoryFailCount := 0 }

/-- Fresh run state: nothing launched yet. -/
def runState0 : RunState :=
  { moverGoroutines := 0, ioThreadPoolGoroutines := 0, monitorGoroutines := 0,
    moverWaitGroupCount := 0, ioThreadPoolWaitGroupCount := 0 }

/-- Shutdown state of a producer built with an `StsTokenShutDown` channel,
before any close. -/
def shutdownStsSet : ShutdownState :=
  { stsTokenSet := true, stsTokenClosed := false, moverShutDownFlag := false,
    accumulatorShutDownFlag := false, retryQueueShutDownFlag := false,
    threadPoolShutDown := false }

/-- Shutdown state of a producer built without an `StsTokenShutDown` channel,
before any close. -/
def shutdownNoSts : ShutdownState :=
  { stsTokenSet := false, stsTokenClosed := false, moverShutDownFlag := false,
    accumulatorShutDownFlag := false, retryQueueShutDownFlag := false,
    threadPoolShutDown := false }

/-- A size trace that stays at 2000 bytes forever (no worker frees memory). -/
def sizeHigh : Nat → Int := fun _ => 2000

/-- A size trace that drops from 2000 to 500 bytes after the third sleep. -/
def sizeDropsAt3 : Nat → Int := fun t => if t < 3 then 2000 else 500

/-- A close environment whose thread pool never stops. -/
def envNeverStops : CloseEnv :=
  { stopped := fun _ => false, elapsedMs := fun k => 300 * k }

/-- A close environment whose thread pool stops at the second poll. -/
def envStopsAt2 : CloseEnv :=
  { stopped := fun k => decide (2 ≤ k), elapsedMs := fun k => 100 * k }

/-- If the observed size stays above the budget for the whole fuel, the
infinite wait loop is still running, having slept once per iteration. -/
theorem infiniteWaitLoop_run (total : Int) (size : Nat → Int) :
    ∀ fuel t, (∀ j, j < fuel → total < size (t + j)) →
      infiniteWaitLoop total size fuel t = (GoResult.running, t + fuel) := by
  intro fuel
  induction fuel with
  | zero => intro t _; simp [infiniteWaitLoop]
  | succ n ih =>
    intro t h
    have h0 : total < size t := by simpa using h 0 (Nat.succ_pos n)
    rw [infiniteWaitLoop, if_pos h0]
    have := ih (t + 1) (fun j hj => by
      have := h (j + 1) (by omega)
      simpa [Nat.add_assoc, Nat.add_comm 1 j] using this)
    rw [this]
    congr 1
    omega

/-- If the size first drops to the budget at instant `t0`, the infinite wait
loop returns `nil` after exactly `t0` sleeps. -/
theorem infiniteWaitLoop_first (total : Int) (size : Nat → Int) :
    ∀ fuel t t0, t ≤ t0 → t0 < t + fuel →
      (∀ j, t ≤ j → j < t0 → total < size j) → size t0 ≤ total →
      infiniteWaitLoop total size fuel t = (GoResult.ok, t0) := by
  intro fuel
  induction fuel with
  | zero => intro t t0 h1 h2; omega
  | succ n ih =>
    intro t t0 h1 h2 habove hstop
    rcases Nat.eq_or_lt_of_le h1 with heq | hlt
    · subst heq
      rw [infiniteWaitLoop, if_neg (by omega)]
    · have h0 : total < size t := habove t le_rfl hlt
      rw [infiniteWaitLoop, if_pos h0]
      exact ih (t + 1) t0 hlt (by omega) (fun j hj1 hj2 => habove j (by omega) hj2) hstop

/-- If the observed size stays above the budget for all `n` iterations, the
bounded wait loop returns the `TimeoutExecption` error after `n` sleeps. -/
theorem boundedWaitLoop_exhaust (total : Int) (size : Nat → Int) :
    ∀ n t, (∀ j, j < n → total < size (t + j)) →
      boundedWaitLoop total size n t = (GoResult.err TimeoutExecption, t + n) := by
  intro n
  induction n with
  | zero => intro t _; simp [boundedWaitLoop]
  | succ n ih =>
    intro t h
    have h0 : total < size t := by simpa using h 0 (Nat.succ_pos n)
    rw [boundedWaitLoop, if_pos h0]
    have := ih (t + 1) (fun j hj => by
      have := h (j + 1) (by omega)
      simpa [Nat.add_assoc, Nat.add_comm 1 j] using this)
    rw [this]
    congr 1
    omega

/-- If the size first drops to the budget at instant `t0 < n`, the bounded
wait loop returns `nil` after exactly `t0` sleeps. -/
theorem boundedWaitLoop_first (total : Int) (size : Nat → Int) :
    ∀ n t t0, t ≤ t0 → t0 < t + n →
      (∀ j, t ≤ j → j < t0 → total < size j) → size t0 ≤ total →
      boundedWaitLoop total size n t = (GoResult.ok, t0) := by
  intro n
  induction n with
  | zero => intro t t0 h1 h2; omega
  | succ n ih =>
    intro t t0 h1 h2 habove hstop
    rcases Nat.eq_or_lt_of_le h1 with heq | hlt
    · subst heq
      rw [boundedWaitLoop, if_neg (by omega)]
    · have h0 : total < size t := habove t le_rfl hlt
      rw [boundedWaitLoop, if_pos h0]
      exact ih (t + 1) t0 hlt (by omega) (fun j hj1 hj2 => habove j (by omega) hj2) hstop

/-- The infinite wait loop never produces an error. -/
theorem infiniteWaitLoop_ne_err (total : Int) (size : Nat → Int) :
    ∀ fuel t m, (infiniteWaitLoop total size fuel t).1 ≠ GoResult.err m := by
  intro fuel
  induction fuel with
  | zero => intro t m; simp [infiniteWaitLoop]
  | succ n ih =>
    intro t m
    rw [infiniteWaitLoop]
    split
    · exact ih (t + 1) m
    · simp

/-- The bounded wait loop errors only with the `TimeoutExecption` message. -/
theorem boundedWaitLoop_err_msg (total : Int) (size : Nat → Int) :
    ∀ n t m, (boundedWaitLoop total size n t).1 = GoResult.err m → m = TimeoutExecption := by
  intro n
  induction n with
  | zero => intro t m h; simpa [boundedWaitLoop] using h.symm
  | succ n ih =>
    intro t m
    rw [boundedWaitLoop]
    split
    · exact ih (t + 1) m
    · simp

/-- A `waitTime` call under budget at its first load: immediate `nil`, no
sleep, no monitor activity. -/
theorem waitTime_under (cfg : ProducerConfig) (size : Nat → Int) (fuel : Nat)
    (h : size 0 ≤ cfg.TotalSizeLnBytes) :
    waitTime cfg size fuel =
      { result := GoResult.ok, sleeps := 0, waitRecorded := false, waitFails := 0 } := by
  rw [waitTime, if_pos h]

/-- A `waitTime` call with a positive `MaxBlockSec` over a constant size
trace: immediate `nil` under budget, else the error after the full bounded
wait. -/
theorem waitTime_const_pos (cfg : ProducerConfig) (v : Int) (fuel : Nat)
    (hpos : 0 < cfg.MaxBlockSec) :
    waitTime cfg (fun _ => v) fuel =
      if v ≤ cfg.TotalSizeLnBytes then
        { result := GoResult.ok, sleeps := 0, waitRecorded := false, waitFails := 0 }
      else
        { result := GoResult.err TimeoutExecption,
          sleeps := cfg.MaxBlockSec.toNat * waitUnitPerSec,
          waitRecorded := true, waitFails := 1 } := by
  by_cases h : v ≤ cfg.TotalSizeLnBytes
  · rw [if_pos h]
    exact waitTime_under cfg (fun _ => v) fuel h
  · rw [if_neg h, waitTime, if_neg h, if_neg (by omega), if_neg (by omega)]
    have := boundedWaitLoop_exhaust cfg.TotalSizeLnBytes (fun _ => v)
      (cfg.MaxBlockSec.toNat * waitUnitPerSec) 0 (fun j _ => by simp; omega)
    simp only [this, Nat.zero_add]

/-- `applyWait` with a trivial wait outcome leaves the state unchanged. -/
theorem applyWait_trivial (st : ProducerState) :
    applyWait st { result := GoResult.ok, sleeps := 0, waitRecorded := false, waitFails := 0 } = st := by
  cases st
  simp [applyWait]

/-- `AdjustHash` errors only with the `InvalidArgument` message. -/
theorem AdjustHash_error_eq (shardHash : Nat) (buckets : Int) (e : String)
    (h : AdjustHash shardHash buckets = Except.error e) : e = InvalidArgument := by
  unfold AdjustHash at h
  split at h
  · simp at h
  · simpa using h.symm

/-- `AdjustHash` fails exactly on invalid bucket counts. -/
theorem AdjustHash_invalid (shardHash : Nat) (buckets : Int)
    (h : validBuckets buckets = false) :
    AdjustHash shardHash buckets = Except.error InvalidArgument := by
  unfold AdjustHash
  rw [h]
  simp

/-- Shape of `waitTime` in its `MaxBlockSec < 0` branch. -/
theorem waitTime_neg_eq (cfg : ProducerConfig) (size : Nat → Int) (fuel : Nat)
    (hn : cfg.TotalSizeLnBytes < size 0) (hneg : cfg.MaxBlockSec < 0) :
    waitTime cfg size fuel =
      { result := (infiniteWaitLoop cfg.TotalSizeLnBytes size fuel 0).1,
        sleeps := (infiniteWaitLoop cfg.TotalSizeLnBytes size fuel 0).2,
        waitRecorded := (infiniteWaitLoop cfg.TotalSizeLnBytes size fuel 0).1 != GoResult.running,
        waitFails := 0 } := by
  unfold waitTime
  rw [if_neg (by omega), if_neg (by omega), if_pos hneg]

/-- Shape of `waitTime` in its `MaxBlockSec > 0` branch. -/
theorem waitTime_pos_eq (cfg : ProducerConfig) (size : Nat → Int) (fuel : Nat)
    (hn : cfg.TotalSizeLnBytes < size 0) (hpos : 0 < cfg.MaxBlockSec) :
    waitTime cfg size fuel =
      { result := (boundedWaitLoop cfg.TotalSizeLnBytes size (cfg.MaxBlockSec.toNat * waitUnitPerSec) 0).1,
        sleeps := (boundedWaitLoop cfg.TotalSizeLnBytes size (cfg.MaxBlockSec.toNat * waitUnitPerSec) 0).2,
        waitRecorded := true,
        waitFails :=
          match (boundedWaitLoop cfg.TotalSizeLnBytes size (cfg.MaxBlockSec.toNat * waitUnitPerSec) 0).1 with
          | GoResult.err _ => 1
          | _ => 0 } := by
  unfold waitTime
  rw [if_neg (by omega), if_neg (by omega), if_neg (by omega)]

/-- C2: when a submission's admission check observes the budget exceeded at
entry, `MaxBlockSec = 0` yields the `TimeoutExecption` error at once with no
sleep; `MaxBlockSec < 0` polls one 10 ms quantum per iteration, returns `nil`
as soon as the budget becomes available (after exactly `t0` sleeps when `t0`
is the first available instant), and never produces the error while the
budget stays unavailable; `MaxBlockSec > 0` polls for up to
`MaxBlockSec * 100` quanta (i.e. `MaxBlockSec` seconds), returning the error
when the budget never becomes available within them, and `nil` at the first
available instant otherwise. -/
theorem c2_maxBlockSec_policy (cfg : ProducerConfig) (size : Nat → Int) (fuel : Nat)
    (h0 : cfg.TotalSizeLnBytes < size 0) :
    (cfg.MaxBlockSec = 0 →
      waitTime cfg size fuel =
        { result := GoResult.err TimeoutExecption, sleeps := 0,
          waitRecorded := false, waitFails := 0 })
    ∧ (cfg.MaxBlockSec < 0 →
        (∀ t0, (∀ j, j < t0 → cfg.TotalSizeLnBytes < size j) →
          size t0 ≤ cfg.TotalSizeLnBytes → t0 < fuel →
          waitTime cfg size fuel =
            { result := GoResult.ok, sleeps := t0, waitRecorded := true, waitFails := 0 })
        ∧ ((∀ j, j < fuel → cfg.TotalSizeLnBytes < size j) →
            (waitTime cfg size fuel).result = GoResult.running ∧
              (waitTime cfg size fuel).waitFails = 0))
    ∧ (0 < cfg.MaxBlockSec →
        ((∀ j, j < cfg.MaxBlockSec.toNat * waitUnitPerSec → cfg.TotalSizeLnBytes < size j) →
          waitTime cfg size fuel =
            { result := GoResult.err TimeoutExecption,
              sleeps := cfg.MaxBlockSec.toNat * waitUnitPerSec,
              waitRecorded := true, waitFails := 1 })
        ∧ (∀ t0, (∀ j, j < t0 → cfg.TotalSizeLnBytes < size j) →
            size t0 ≤ cfg.TotalSizeLnBytes → t0 < cfg.MaxBlockSec.toNat * waitUnitPerSec →
            waitTime cfg size fuel =
              { result := GoResult.ok, sleeps := t0, waitRecorded := true, waitFails := 0 })) := by
  refine ⟨?_, ?_, ?_⟩
  · intro hz
    unfold waitTime
    rw [if_neg (by omega), if_pos hz, if_pos (by omega)]
  · intro hneg
    constructor
    · intro t0 hab hst ht0
      have hl := infiniteWaitLoop_first cfg.TotalSizeLnBytes size fuel 0 t0 (Nat.zero_le _)
        (by omega) (fun j _ hj => hab j hj) hst
      rw [waitTime_neg_eq cfg size fuel h0 hneg, hl]
      rfl
    · intro hab
      have hl := infiniteWaitLoop_run cfg.TotalSizeLnBytes size fuel 0
        (fun j hj => by simpa using hab j hj)
      rw [waitTime_neg_eq cfg size fuel h0 hneg, hl]
      exact ⟨rfl, rfl⟩
  · intro hpos
    constructor
    · intro hab
      have hl := boundedWaitLoop_exhaust cfg.TotalSizeLnBytes size
        (cfg.MaxBlockSec.toNat * waitUnitPerSec) 0 (fun j hj => by simpa using hab j hj)
      rw [waitTime_pos_eq cfg size fuel h0 hpos, hl]
      simp
    · intro t0 hab hst ht0
      have hl := boundedWaitLoop_first cfg.TotalSizeLnBytes size
        (cfg.MaxBlockSec.toNat * waitUnitPerSec) 0 t0 (Nat.zero_le _) (by omega)
        (fun j _ hj => hab j hj) hst
      rw [waitTime_pos_eq cfg size fuel h0 hpos, hl]

/-- Witness for C2: concrete runs of all three `MaxBlockSec` regimes over a
budget of 1024 bytes, with a trace stuck at 2000 bytes and a trace dropping
to 500 bytes after the third sleep. -/
theorem c2_maxBlockSec_policy_witness :
    waitTime { cfgBase with MaxBlockSec := 0 } sizeHigh 7 =
      { result := GoResult.err TimeoutExecption, sleeps := 0,
        waitRecorded := false, waitFails := 0 }
    ∧ waitTime { cfgBase with MaxBlockSec := -1 } sizeDropsAt3 9 =
      { result := GoResult.ok, sleeps := 3, waitRecorded := true, waitFails := 0 }
    ∧ (waitTime { cfgBase with MaxBlockSec := -1 } sizeHigh 9).result = GoResult.running
    ∧ waitTime { cfgBase with MaxBlockSec := 1 } sizeHigh 0 =
      { result := GoResult.err TimeoutExecption, sleeps := 100,
        waitRecorded := true, waitFails := 1 }
    ∧ waitTime { cfgBase with MaxBlockSec := 1 } sizeDropsAt3 0 =
      { result := GoResult.ok, sleeps := 3, waitRecorded := true, waitFails := 0 } := by
  refine ⟨?_, ?_, ?_, ?_, ?_⟩
  · exact (c2_maxBlockSec_policy _ sizeHigh 7 (by decide)).1 rfl
  · exact ((c2_maxBlockSec_policy _ sizeDropsAt3 9 (by decide)).2.1 (by decide)).1 3
      (by decide) (by decide) (by decide)
  · exact (((c2_maxBlockSec_policy _ sizeHigh 9 (by decide)).2.1 (by decide)).2 (by decide)).1
  · exact ((c2_maxBlockSec_policy _ sizeHigh 0 (by decide)).2.2 (by decide)).1 (by decide)
  · exact ((c2_maxBlockSec_policy _ sizeDropsAt3 0 (by decide)).2.2 (by decide)).2 3
      (by decide) (by decide) (by decide)

/-- C9: whenever the admission check of a submission call observes the
global budget at or below `TotalSizeLnBytes` at entry, the call passes
admission immediately — `nil` result, zero sleeps, the wait-memory monitor
counter untouched and the wait-failure counter untouched — for every value
of `MaxBlockSec`. -/
theorem c9_under_budget_no_wait (cfg : ProducerConfig) (size : Nat → Int) (fuel : Nat)
    (st : ProducerState) (h : size 0 ≤ cfg.TotalSizeLnBytes) :
    waitTime cfg size fuel =
      { result := GoResult.ok, sleeps := 0, waitRecorded := false, waitFails := 0 }
    ∧ applyWait st (waitTime cfg size fuel) = st := by
  have hw := waitTime_under cfg size fuel h
  exact ⟨hw, by rw [hw]; exact applyWait_trivial st⟩

/-- Witness for C9: a 1000-byte counter against a 1024-byte budget passes
immediately and leaves the monitor counters of a concrete state alone. -/
theorem c9_under_budget_no_wait_witness :
    waitTime cfgBase (fun _ => (1000 : Int)) 5 =
      { result := GoResult.ok, sleeps := 0, waitRecorded := false, waitFails := 0 }
    ∧ applyWait stOneRecord (waitTime cfgBase (fun _ => (1000 : Int)) 5) = stOneRecord :=
  c9_under_budget_no_wait cfgBase (fun _ => (1000 : Int)) 5 stOneRecord (by decide)

/-- Counterexample to C1: with `TotalSizeInBytes = 1024`, `MaxBlockSec = 1`
and one 1000-byte record already admitted (budget at 1000), a second
1000-byte submission is admitted immediately — `nil` result and a grown
accumulator — rather than rejected: the admission check of `waitTime`
compares the current budget against the limit and never considers the
incoming record's size. -/
theorem c1_counterexample :
    (SendLog cfgBase stOneRecord 1 "p" "l" "t" "s" 1000).result = GoResult.ok
    ∧ (SendLog cfgBase stOneRecord 1 "p" "l" "t" "s" 1000).result ≠
        GoResult.err TimeoutExecption
    ∧ (SendLog cfgBase stOneRecord 1 "p" "l" "t" "s" 1000).state.accumulator.length =
        stOneRecord.accumulator.length + 1
    ∧ (SendLog cfgBase stOneRecord 1 "p" "l" "t" "s" 1000).state.producerLogGroupSize = 2000 := by
  decide

/-- C1 (amended): for every submission operation, under a positive
`MaxBlockSec` and a budget that the workers do not change during the call
(the sequential embedding), the call is rejected with the
`TimeoutExecption` error — the spec's `MemoryExhausted` — exactly when the
global budget already strictly exceeds `TotalSizeLnBytes` when the call
starts; the size of the incoming records plays no part in the check, so a
submission that would merely push the budget above the limit is admitted. -/
theorem c1_rejection_iff (cfg : ProducerConfig) (st : ProducerState) (fuel : Nat)
    (project logstore topic source : String) (shardHash : Nat) (logSize : Nat)
    (logSizes : List Nat) (cb : String) (hpos : 0 < cfg.MaxBlockSec) :
    ((SendLog cfg st fuel project logstore topic source logSize).result =
        GoResult.err TimeoutExecption ↔ cfg.TotalSizeLnBytes < st.producerLogGroupSize)
    ∧ ((SendLogList cfg st fuel project logstore topic source logSizes).result =
        GoResult.err TimeoutExecption ↔ cfg.TotalSizeLnBytes < st.producerLogGroupSize)
    ∧ ((SendLogWithCallBack cfg st fuel project logstore topic source logSize cb).result =
        GoResult.err TimeoutExecption ↔ cfg.TotalSizeLnBytes < st.producerLogGroupSize)
    ∧ ((SendLogListWithCallBack cfg st fuel project logstore topic source logSizes cb).result =
        GoResult.err TimeoutExecption ↔ cfg.TotalSizeLnBytes < st.producerLogGroupSize)
    ∧ ((HashSendLog cfg st fuel project logstore shardHash topic source logSize).result =
        GoResult.err TimeoutExecption ↔ cfg.TotalSizeLnBytes < st.producerLogGroupSize)
    ∧ ((HashSendLogList cfg st fuel project logstore shardHash topic source logSizes).result =
        GoResult.err TimeoutExecption ↔ cfg.TotalSizeLnBytes < st.producerLogGroupSize)
    ∧ ((HashSendLogWithCallBack cfg st fuel project logstore shardHash topic source logSize cb).result =
        GoResult.err TimeoutExecption ↔ cfg.TotalSizeLnBytes < st.producerLogGroupSize)
    ∧ ((HashSendLogListWithCallBack cfg st fuel project logstore shardHash topic source logSizes cb).result =
        GoResult.err TimeoutExecption ↔ cfg.TotalSizeLnBytes < st.producerLogGroupSize) := by
  have hw := waitTime_const_pos cfg st.producerLogGroupSize fuel hpos
  refine ⟨?_, ?_, ?_, ?_, ?_, ?_, ?_, ?_⟩
  · by_cases hb : st.producerLogGroupSize ≤ cfg.TotalSizeLnBytes <;>
      (simp [SendLog, hw, hb] <;> omega)
  · by_cases hb : st.producerLogGroupSize ≤ cfg.TotalSizeLnBytes <;>
      (simp [SendLogList, hw, hb] <;> omega)
  · by_cases hb : st.producerLogGroupSize ≤ cfg.TotalSizeLnBytes <;>
      (simp [SendLogWithCallBack, hw, hb] <;> omega)
  · by_cases hb : st.producerLogGroupSize ≤ cfg.TotalSizeLnBytes <;>
      (simp [SendLogListWithCallBack, hw, hb] <;> omega)
  · by_cases hb : st.producerLogGroupSize ≤ cfg.TotalSizeLnBytes
    · by_cases hA : cfg.AdjustShargHash
      · cases hAd : AdjustHash shardHash cfg.Buckets with
        | error e =>
          have he := AdjustHash_error_eq shardHash cfg.Buckets e hAd
          subst he
          simp [HashSendLog, hw, hb, hA, hAd, TimeoutExecption, InvalidArgument] <;> omega
        | ok v =>
          simp [HashSendLog, hw, hb, hA, hAd] <;> omega
      · simp [HashSendLog, hw, hb, hA] <;> omega
    · simp [HashSendLog, hw, hb] <;> omega
  · by_cases hb : st.producerLogGroupSize ≤ cfg.TotalSizeLnBytes
    · by_cases hA : cfg.AdjustShargHash
      · cases hAd : AdjustHash shardHash cfg.Buckets with
        | error e =>
          have he := AdjustHash_error_eq shardHash cfg.Buckets e hAd
          subst he
          simp [HashSendLogList, hw, hb, hA, hAd, TimeoutExecption, InvalidArgument] <;> omega
        | ok v =>
          simp [HashSendLogList, hw, hb, hA, hAd] <;> omega
      · simp [HashSendLogList, hw, hb, hA] <;> omega
    · simp [HashSendLogList, hw, hb] <;> omega
  · by_cases hb : st.producerLogGroupSize ≤ cfg.TotalSizeLnBytes
    · by_cases hA : cfg.AdjustShargHash
      · cases hAd : AdjustHash shardHash cfg.Buckets with
        | error e =>
          have he := AdjustHash_error_eq shardHash cfg.Buckets e hAd
          subst he
          simp [HashSendLogWithCallBack, hw, hb, hA, hAd, TimeoutExecption, InvalidArgument] <;> omega
        | ok v =>
          simp [HashSendLogWithCallBack, hw, hb, hA, hAd] <;> omega
      · simp [HashSendLogWithCallBack, hw, hb, hA] <;> omega
    · simp [HashSendLogWithCallBack, hw, hb] <;> omega
  · by_cases hb : st.producerLogGroupSize ≤ cfg.TotalSizeLnBytes
    · by_cases hA : cfg.AdjustShargHash
      · cases hAd : AdjustHash shardHash cfg.Buckets with
        | error e =>
          have he := AdjustHash_error_eq shardHash cfg.Buckets e hAd
          subst he
          simp [HashSendLogListWithCallBack, hw, hb, hA, hAd, TimeoutExecption, InvalidArgument] <;> omega
        | ok v =>
          simp [HashSendLogListWithCallBack, hw, hb, hA, hAd] <;> omega
      · simp [HashSendLogListWithCallBack, hw, hb, hA] <;> omega
    · simp [HashSendLogListWithCallBack, hw, hb] <;> omega

/-- Witness for the amended C1: over budget (2000 against 1024) a
submission is rejected with the `TimeoutExecption` error. -/
theorem c1_rejection_iff_witness :
    (SendLog cfgBase stOverBudget 1 "p" "l" "t" "s" 10).result =
      GoResult.err TimeoutExecption :=
  (c1_rejection_iff cfgBase stOverBudget 1 "p" "l" "t" "s" 0 10 [] "cb"
    (by decide)).1.mpr (by decide)

/-- C10: the plain submission operations never invoke `AdjustHash` — whatever
the configuration, in particular with `AdjustShargHash` enabled — and, when
they pass admission, admit their records under the empty (absent) shard
hash. -/
theorem c10_plain_send_empty_hash (cfg : ProducerConfig) (st : ProducerState) (fuel : Nat)
    (project logstore topic source : String) (logSize : Nat) (logSizes : List Nat)
    (cb : String) :
    ((SendLog cfg st fuel project logstore topic source logSize).adjustInvoked = false
      ∧ (st.producerLogGroupSize ≤ cfg.TotalSizeLnBytes →
          (SendLog cfg st fuel project logstore topic source logSize).state.accumulator =
            { key := { project := project, logstore := logstore, shardHash := none,
                       topic := topic, source := source },
              payload := LogPayload.single logSize, callback := none } :: st.accumulator))
    ∧ ((SendLogList cfg st fuel project logstore topic source logSizes).adjustInvoked = false
      ∧ (st.producerLogGroupSize ≤ cfg.TotalSizeLnBytes →
          (SendLogList cfg st fuel project logstore topic source logSizes).state.accumulator =
            { key := { project := project, logstore := logstore, shardHash := none,
                       topic := topic, source := source },
              payload := LogPayload.list logSizes, callback := none } :: st.accumulator))
    ∧ ((SendLogWithCallBack cfg st fuel project logstore topic source logSize cb).adjustInvoked = false
      ∧ (st.producerLogGroupSize ≤ cfg.TotalSizeLnBytes →
          (SendLogWithCallBack cfg st fuel project logstore topic source logSize cb).state.accumulator =
            { key := { project := project, logstore := logstore, shardHash := none,
                       topic := topic, source := source },
              payload := LogPayload.single logSize, callback := some cb } :: st.accumulator))
    ∧ ((SendLogListWithCallBack cfg st fuel project logstore topic source logSizes cb).adjustInvoked = false
      ∧ (st.producerLogGroupSize ≤ cfg.TotalSizeLnBytes →
          (SendLogListWithCallBack cfg st fuel project logstore topic source logSizes cb).state.accumulator =
            { key := { project := project, logstore := logstore, shardHash := none,
                       topic := topic, source := source },
              payload := LogPayload.list logSizes, callback := some cb } :: st.accumulator)) := by
  refine ⟨⟨?_, ?_⟩, ⟨?_, ?_⟩, ⟨?_, ?_⟩, ⟨?_, ?_⟩⟩
  · cases hres : (waitTime cfg (fun _ => st.producerLogGroupSize) fuel).result <;>
      simp [SendLog, hres]
  · intro hb
    have hw := waitTime_under cfg (fun _ => st.producerLogGroupSize) fuel hb
    simp [SendLog, hw, applyWait_trivial, addLogToProducerBatch]
  · cases hres : (waitTime cfg (fun _ => st.producerLogGroupSize) fuel).result <;>
      simp [SendLogList, hres]
  · intro hb
    have hw := waitTime_under cfg (fun _ => st.producerLogGroupSize) fuel hb
    simp [SendLogList, hw, applyWait_trivial, addLogToProducerBatch]
  · cases hres : (waitTime cfg (fun _ => st.producerLogGroupSize) fuel).result <;>
      simp [SendLogWithCallBack, hres]
  · intro hb
    have hw := waitTime_under cfg (fun _ => st.producerLogGroupSize) fuel hb
    simp [SendLogWithCallBack, hw, applyWait_trivial, addLogToProducerBatch]
  · cases hres : (waitTime cfg (fun _ => st.producerLogGroupSize) fuel).result <;>
      simp [SendLogListWithCallBack, hres]
  · intro hb
    have hw := waitTime_under cfg (fun _ => st.producerLogGroupSize) fuel hb
    simp [SendLogListWithCallBack, hw, applyWait_trivial, addLogToProducerBatch]

/-- Witness for C10: with `AdjustShargHash` enabled, a concrete `SendLog`
run invokes no hash adjustment and admits its record under the empty shard
hash. -/
theorem c10_plain_send_empty_hash_witness :
    (SendLog cfgBase stOneRecord 1 "p2" "l2" "t2" "s2" 20).adjustInvoked = false
    ∧ (SendLog cfgBase stOneRecord 1 "p2" "l2" "t2" "s2" 20).state.accumulator =
        { key := { project := "p2", logstore := "l2", shardHash := none,
                   topic := "t2", source := "s2" },
          payload := LogPayload.single 20, callback := none } :: stOneRecord.accumulator :=
  ⟨(c10_plain_send_empty_hash cfgBase stOneRecord 1 "p2" "l2" "t2" "s2" 20 [] "cb").1.1,
   (c10_plain_send_empty_hash cfgBase stOneRecord 1 "p2" "l2" "t2" "s2" 20 [] "cb").1.2
     (by decide)⟩

/-- C8: with `AdjustShargHash` enabled and a `Buckets` value that is not a
power of two in [1, 256], every hash-routed submission that reaches the
adjustment (admission passing immediately, the sequential embedding) returns
the `InvalidArgument` error, admits nothing, and leaves the producer state
exactly as it was. -/
theorem c8_invalid_buckets (cfg : ProducerConfig) (st : ProducerState) (fuel : Nat)
    (project logstore : String) (shardHash : Nat) (topic source : String)
    (logSize : Nat) (logSizes : List Nat) (cb : String)
    (hA : cfg.AdjustShargHash = true) (hbad : validBuckets cfg.Buckets = false)
    (hb : st.producerLogGroupSize ≤ cfg.TotalSizeLnBytes) :
    HashSendLog cfg st fuel project logstore shardHash topic source logSize =
      { result := GoResult.err InvalidArgument, state := st, adjustInvoked := true }
    ∧ HashSendLogList cfg st fuel project logstore shardHash topic source logSizes =
      { result := GoResult.err InvalidArgument, state := st, adjustInvoked := true }
    ∧ HashSendLogWithCallBack cfg st fuel project logstore shardHash topic source logSize cb =
      { result := GoResult.err InvalidArgument, state := st, adjustInvoked := true }
    ∧ HashSendLogListWithCallBack cfg st fuel project logstore shardHash topic source logSizes cb =
      { result := GoResult.err InvalidArgument, state := st, adjustInvoked := true } := by
  have hw := waitTime_under cfg (fun _ => st.producerLogGroupSize) fuel hb
  have hAd := AdjustHash_invalid shardHash cfg.Buckets hbad
  refine ⟨?_, ?_, ?_, ?_⟩
  · simp [HashSendLog, hw, hA, hAd, applyWait_trivial]
  · simp [HashSendLogList, hw, hA, hAd, applyWait_trivial]
  · simp [HashSendLogWithCallBack, hw, hA, hAd, applyWait_trivial]
  · simp [HashSendLogListWithCallBack, hw, hA, hAd, applyWait_trivial]

/-- Witness for C8: `Buckets = 100` (in range but not a power of two) makes
a concrete `HashSendLog` fail with `InvalidArgument` and leave the state
untouched. -/
theorem c8_invalid_buckets_witness :
    HashSendLog { cfgBase with Buckets := 100 } stOneRecord 1 "p" "l" 7 "t" "s" 10 =
      { result := GoResult.err InvalidArgument, state := stOneRecord, adjustInvoked := true } :=
  (c8_invalid_buckets { cfgBase with Buckets := 100 } stOneRecord 1 "p" "l" 7 "t" "s"
    10 [] "cb" (by decide) (by decide) (by decide)).1

/-- Counterexample to C5: `validateProducerConfig` never touches
`MaxRetryTimes` — an out-of-range value (−5, below the documented clamp
`≥ 0`) passes through construction unchanged instead of being corrected to
the documented default 10. -/
theorem c5_counterexample :
    (validateProducerConfig { cfgBase with MaxRetryTimes := -5 }).MaxRetryTimes = -5
    ∧ ({ cfgBase with MaxRetryTimes := -5 } : ProducerConfig).MaxRetryTimes < 0
    ∧ (validateProducerConfig { cfgBase with MaxRetryTimes := -5 }).MaxRetryTimes ≠ 10 := by
  decide

/-- C5 (amended): construction never fails on an out-of-range value —
`validateProducerConfig` is total and corrects `MaxReservedAttempts`,
`MaxBatchCount`, `MaxBatchSize`, `MaxIoWorkerCount`, `BaseRetryBackoffMs`,
`TotalSizeLnBytes` and `LingerMs` to their documented defaults exactly when
they are out of range (the source logs a warning in each of those cases),
while `MaxRetryTimes` and `MaxRetryBackoffMs` are not validated at all and
pass through unchanged. -/
theorem c5_validate_fields (cfg : ProducerConfig) :
    (validateProducerConfig cfg).MaxReservedAttempts =
      (if cfg.MaxReservedAttempts ≤ 0 then 11 else cfg.MaxReservedAttempts)
    ∧ (validateProducerConfig cfg).MaxBatchCount =
      (if cfg.MaxBatchCount > 40960 ∨ cfg.MaxBatchCount ≤ 0 then 40960 else cfg.MaxBatchCount)
    ∧ (validateProducerConfig cfg).MaxBatchSize =
      (if cfg.MaxBatchSize > 1024 * 1024 * 5 ∨ cfg.MaxBatchSize ≤ 0 then 1024 * 1024 * 5
       else cfg.MaxBatchSize)
    ∧ (validateProducerConfig cfg).MaxIoWorkerCount =
      (if cfg.MaxIoWorkerCount ≤ 0 then 50 else cfg.MaxIoWorkerCount)
    ∧ (validateProducerConfig cfg).BaseRetryBackoffMs =
      (if cfg.BaseRetryBackoffMs ≤ 0 then 100 else cfg.BaseRetryBackoffMs)
    ∧ (validateProducerConfig cfg).TotalSizeLnBytes =
      (if cfg.TotalSizeLnBytes ≤ 0 then 100 * 1024 * 1024 else cfg.TotalSizeLnBytes)
    ∧ (validateProducerConfig cfg).LingerMs =
      (if cfg.LingerMs < 100 then 2000 else cfg.LingerMs)
    ∧ (validateProducerConfig cfg).MaxRetryTimes = cfg.MaxRetryTimes
    ∧ (validateProducerConfig cfg).MaxRetryBackoffMs = cfg.MaxRetryBackoffMs
    ∧ (validateProducerConfig cfg).AdjustShargHash = cfg.AdjustShargHash
    ∧ (validateProducerConfig cfg).Buckets = cfg.Buckets := by
  by_cases h1 : cfg.MaxReservedAttempts ≤ 0 <;>
  by_cases h2 : cfg.MaxBatchCount > 40960 ∨ cfg.MaxBatchCount ≤ 0 <;>
  by_cases h3 : cfg.MaxBatchSize > 1024 * 1024 * 5 ∨ cfg.MaxBatchSize ≤ 0 <;>
  by_cases h4 : cfg.MaxIoWorkerCount ≤ 0 <;>
  by_cases h5 : cfg.BaseRetryBackoffMs ≤ 0 <;>
  by_cases h6 : cfg.TotalSizeLnBytes ≤ 0 <;>
  by_cases h7 : cfg.LingerMs < 100 <;>
  simp only [validateProducerConfig, h1, h2, h3, h4, h5, h6, h7, if_true, if_false,
    eq_self_iff_true, and_self, and_true, true_and]

/-- C4: the code violates the claim — `Start` is not idempotent.  A second
`Start` on a freshly built producer launches a second mover goroutine, a
second thread-pool task and a second monitor thread, and bumps both wait
groups again, so a double `Start` differs from a single one. -/
theorem c4_double_start_launches_again :
    Start cfgBase (Start cfgBase runState0) ≠ Start cfgBase runState0
    ∧ (Start cfgBase runState0).moverGoroutines = 1
    ∧ (Start cfgBase (Start cfgBase runState0)).moverGoroutines = 2
    ∧ (Start cfgBase (Start cfgBase runState0)).ioThreadPoolGoroutines = 2
    ∧ (Start cfgBase (Start cfgBase runState0)).monitorGoroutines = 2
    ∧ (Start cfgBase (Start cfgBase runState0)).moverWaitGroupCount = 2 := by
  decide

/-- `sendCloseProdcerSignal` on a producer whose sts channel has not been
closed yet: closes the channel iff it exists and sets the three shutdown
flags. -/
theorem sendCloseProdcerSignal_ok (st : ShutdownState) (h : st.stsTokenClosed = false) :
    sendCloseProdcerSignal st = Except.ok
      { st with stsTokenClosed := st.stsTokenSet, moverShutDownFlag := true,
                accumulatorShutDownFlag := true, retryQueueShutDownFlag := true } := by
  cases st with
  | mk a b c d e f =>
    subst h
    by_cases ha : a <;> simp [sendCloseProdcerSignal, closeStstokenChannel, ha]

/-- `SafeClose` on a producer whose sts channel has not been closed yet
returns normally with all shutdown flags set. -/
theorem SafeClose_ok (st : ShutdownState) (h : st.stsTokenClosed = false) :
    SafeClose st = Except.ok (closeSignaled st) := by
  cases st with
  | mk a b c d e f =>
    subst h
    unfold SafeClose
    rw [sendCloseProdcerSignal_ok _ rfl]
    simp [closeSignaled]

/-- `Close` on a producer whose sts channel has not been closed yet returns
the poll-loop result next to the fully signalled state. -/
theorem Close_ok (st : ShutdownState) (timeoutMs : Int) (env : CloseEnv) (fuel : Nat)
    (h : st.stsTokenClosed = false) :
    Close st timeoutMs env fuel =
      Except.ok (closeLoop timeoutMs env fuel 0, closeSignaled st) := by
  cases st with
  | mk a b c d e f =>
    subst h
    unfold Close
    rw [sendCloseProdcerSignal_ok _ rfl]
    simp [closeSignaled]

/-- Counterexample to C3: on a configuration with `StsTokenShutDown` set,
the first `SafeClose` returns normally but the second panics with a
close-of-closed-channel — the second call is not a no-op that completes
normally. -/
theorem c3_counterexample :
    SafeClose shutdownStsSet =
      Except.ok { stsTokenSet := true, stsTokenClosed := true, moverShutDownFlag := true,
                  accumulatorShutDownFlag := true, retryQueueShutDownFlag := true,
                  threadPoolShutDown := true }
    ∧ SafeClose { stsTokenSet := true, stsTokenClosed := true, moverShutDownFlag := true,
                  accumulatorShutDownFlag := true, retryQueueShutDownFlag := true,
                  threadPoolShutDown := true } =
      Except.error GoPanic.closeOfClosedChannel := by
  exact ⟨rfl, rfl⟩

/-- C3 (amended): `SafeClose` after `SafeClose` is a no-op — second call
returning normally and changing nothing — exactly for configurations
without an `StsTokenShutDown` channel; with one, the second call panics on
the double channel close. -/
theorem c3_safe_close_idempotent_no_ststoken (st : ShutdownState)
    (h : st.stsTokenSet = false) :
    SafeClose st = Except.ok (closeSignaled st)
    ∧ SafeClose (closeSignaled st) = Except.ok (closeSignaled st) := by
  cases st with
  | mk a b c d e f =>
    subst h
    refine ⟨?_, ?_⟩ <;>
      simp [SafeClose, sendCloseProdcerSignal, closeStstokenChannel, closeSignaled]

/-- Witness for the amended C3: a concrete double `SafeClose` without an
sts-token channel. -/
theorem c3_safe_close_idempotent_witness :
    SafeClose shutdownNoSts = Except.ok (closeSignaled shutdownNoSts)
    ∧ SafeClose (closeSignaled shutdownNoSts) = Except.ok (closeSignaled shutdownNoSts) :=
  c3_safe_close_idempotent_no_ststoken shutdownNoSts rfl

/-- If the pool is first observed stopped at poll `k0`, with every earlier
poll seeing it unstopped and within the deadline, the close loop returns
`nil`. -/
theorem closeLoop_stops (timeoutMs : Int) (env : CloseEnv) :
    ∀ fuel k k0, k ≤ k0 → k0 < k + fuel → env.stopped k0 = true →
      (∀ j, k ≤ j → j < k0 → env.stopped j = false ∧ env.elapsedMs j ≤ timeoutMs) →
      closeLoop timeoutMs env fuel k = GoResult.ok := by
  intro fuel
  induction fuel with
  | zero => intro k k0 h1 h2; omega
  | succ n ih =>
    intro k k0 h1 h2 hstop hbefore
    rcases Nat.eq_or_lt_of_le h1 with heq | hlt
    · subst heq
      rw [closeLoop, if_pos hstop]
    · have hj := hbefore k le_rfl hlt
      rw [closeLoop, if_neg (by simp [hj.1]), if_neg (by omega)]
      exact ih (k + 1) k0 hlt (by omega) hstop (fun j hj1 hj2 => hbefore j (by omega) hj2)

/-- If the deadline is first observed crossed at poll `k0` with the pool
still unstopped there, and every earlier poll saw it unstopped and within
the deadline, the close loop returns the `TimeoutExecption` error. -/
theorem closeLoop_times_out (timeoutMs : Int) (env : CloseEnv) :
    ∀ fuel k k0, k ≤ k0 → k0 < k + fuel → env.stopped k0 = false →
      timeoutMs < env.elapsedMs k0 →
      (∀ j, k ≤ j → j < k0 → env.stopped j = false ∧ env.elapsedMs j ≤ timeoutMs) →
      closeLoop timeoutMs env fuel k = GoResult.err TimeoutExecption := by
  intro fuel
  induction fuel with
  | zero => intro k k0 h1 h2; omega
  | succ n ih =>
    intro k k0 h1 h2 hns htm hbefore
    rcases Nat.eq_or_lt_of_le h1 with heq | hlt
    · subst heq
      rw [closeLoop, if_neg (by simp [hns]), if_pos (by omega)]
    · have hj := hbefore k le_rfl hlt
      rw [closeLoop, if_neg (by simp [hj.1]), if_neg (by omega)]
      exact ih (k + 1) k0 hlt (by omega) hns htm (fun j hj1 hj2 => hbefore j (by omega) hj2)

/-- C6: a bounded `Close(timeoutMs)` on a not-yet-closed producer returns
`nil` when the thread pool is observed drained before the driver observes
the deadline crossed, and returns the `TimeoutExecption` error — the spec's
`Timeout` — when the driver observes the deadline crossed while the pool
has not stopped at any poll up to that moment; past that observation it
polls no further. -/
theorem c6_close_bounded (st : ShutdownState) (timeoutMs : Int) (env : CloseEnv)
    (fuel k0 : Nat) (hfresh : st.stsTokenClosed = false) (hk : k0 < fuel) :
    (env.stopped k0 = true →
      (∀ j, j < k0 → env.stopped j = false ∧ env.elapsedMs j ≤ timeoutMs) →
      Close st timeoutMs env fuel = Except.ok (GoResult.ok, closeSignaled st))
    ∧ (env.stopped k0 = false → timeoutMs < env.elapsedMs k0 →
      (∀ j, j < k0 → env.stopped j = false ∧ env.elapsedMs j ≤ timeoutMs) →
      Close st timeoutMs env fuel = Except.ok (GoResult.err TimeoutExecption, closeSignaled st)) := by
  constructor
  · intro hstop hbefore
    rw [Close_ok st timeoutMs env fuel hfresh,
      closeLoop_stops timeoutMs env fuel 0 k0 (Nat.zero_le _) (by omega) hstop
        (fun j _ hj => hbefore j hj)]
  · intro hns htm hbefore
    rw [Close_ok st timeoutMs env fuel hfresh,
      closeLoop_times_out timeoutMs env fuel 0 k0 (Nat.zero_le _) (by omega) hns htm
        (fun j _ hj => hbefore j hj)]

/-- Witness for C6: a pool that stops at the second poll within a 1000 ms
budget yields `nil`; a pool that never stops against a 500 ms budget yields
the timeout error at the first poll past the deadline. -/
theorem c6_close_bounded_witness :
    Close shutdownNoSts 1000 envStopsAt2 5 =
      Except.ok (GoResult.ok, closeSignaled shutdownNoSts)
    ∧ Close shutdownNoSts 500 envNeverStops 5 =
      Except.ok (GoResult.err TimeoutExecption, closeSignaled shutdownNoSts) :=
  ⟨(c6_close_bounded shutdownNoSts 1000 envStopsAt2 5 2 rfl (by decide)).1
      (by decide) (by decide),
   (c6_close_bounded shutdownNoSts 500 envNeverStops 5 2 rfl (by decide)).2
      (by decide) (by decide) (by decide)⟩

/-- `waitTime` errors only with the `TimeoutExecption` message. -/
theorem waitTime_err_msg (cfg : ProducerConfig) (size : Nat → Int) (fuel : Nat) (m : String)
    (h : (waitTime cfg size fuel).result = GoResult.err m) : m = TimeoutExecption := by
  unfold waitTime at h
  split at h
  · simp at h
  · split at h
    · split at h
      · simp at h
        exact h.symm
      · simp at h
    · split at h
      · exact absurd h (infiniteWaitLoop_ne_err _ _ _ _ _)
      · exact boundedWaitLoop_err_msg _ _ _ _ _ h

/-- The close loop errors only with the `TimeoutExecption` message. -/
theorem closeLoop_err_msg (timeoutMs : Int) (env : CloseEnv) :
    ∀ fuel k m, closeLoop timeoutMs env fuel k = GoResult.err m → m = TimeoutExecption := by
  intro fuel
  induction fuel with
  | zero => intro k m h; simp [closeLoop] at h
  | succ n ih =>
    intro k m h
    rw [closeLoop] at h
    split at h
    · simp at h
    · split at h
      · simpa using h.symm
      · exact ih (k + 1) m h

/-- Counterexample to C7: a concrete refused submission and a concrete
timed-out bounded close surface the very same error value
`errors.New(TimeoutExecption)` — the caller cannot tell the two failure
kinds apart from the returned error. -/
theorem c7_counterexample :
    (SendLog { cfgBase with MaxBlockSec := 0 } stOverBudget 1 "p" "l" "t" "s" 10).result =
      GoResult.err TimeoutExecption
    ∧ Close shutdownNoSts 500 envNeverStops 5 =
      Except.ok (GoResult.err TimeoutExecption, closeSignaled shutdownNoSts)
    ∧ (SendLog { cfgBase with MaxBlockSec := 0 } stOverBudget 1 "p" "l" "t" "s" 10).result =
      closeLoop 500 envNeverStops 5 0 := by
  exact ⟨rfl, rfl, rfl⟩

/-- C7 (amended): the admission-refusal error of a submission and the
bounded-close timeout error are the same error kind: whenever the admission
wait fails and a bounded close times out, both carry the single
`TimeoutExecption` message, so the two failures are not distinguishable by
the returned error. -/
theorem c7_same_error (cfg : ProducerConfig) (size : Nat → Int) (fuel : Nat) (m : String)
    (st : ShutdownState) (timeoutMs : Int) (env : CloseEnv) (fuel2 : Nat)
    (m2 : String) (st2 : ShutdownState)
    (h1 : (waitTime cfg size fuel).result = GoResult.err m)
    (h2 : Close st timeoutMs env fuel2 = Except.ok (GoResult.err m2, st2)) :
    m = m2 ∧ m = TimeoutExecption := by
  have hm := waitTime_err_msg cfg size fuel m h1
  have hm2 : m2 = TimeoutExecption := by
    unfold Close at h2
    rcases hs : sendCloseProdcerSignal st with p | st1
    · rw [hs] at h2
      exact absurd h2 (by simp)
    · rw [hs] at h2
      simp only [Except.ok.injEq, Prod.mk.injEq] at h2
      exact closeLoop_err_msg timeoutMs env fuel2 0 m2 h2.1
  rw [hm, hm2]
  exact ⟨rfl, rfl⟩

/-- Witness for the amended C7: concrete instances of both failing calls
satisfy the hypotheses, and both messages coincide. -/
theorem c7_same_error_witness :
    TimeoutExecption = TimeoutExecption ∧ TimeoutExecption = TimeoutExecption :=
  c7_same_error { cfgBase with MaxBlockSec := 0 } (fun _ => 2000) 1 TimeoutExecption
    shutdownNoSts 500 envNeverStops 5 TimeoutExecption (closeSignaled shutdownNoSts)
    (by decide) (by rfl)
